import Mathlib

/-!
Verification of the citation-reconciliation and dialogue-turn orchestration
core of the paperchat repository, embedded shallowly from
src/paperchat/ui/chat.py.  The functions `process_citations`,
`format_response_with_citations` and `check_model_config_changes` are
imported there from modules that are absent from src/, so they are modelled
from the specification, as marked on each definition.
-/

namespace PaperChat

/-- An evidence passage retrieved for one query, carrying the identifier
usable in citation markers (spec section 3, `EvidencePassage`). -/
structure EvidencePassage where
  id : Nat
  text : String
deriving DecidableEq, Repr

/-- Ordered collection of retrieved passages for one query (spec section 3,
`EvidenceSet`). -/
abbrev EvidenceSet := List EvidencePassage

/-- Identifiers carried by an evidence set, in retrieval order. -/
def idsOf (E : EvidenceSet) : List Nat := E.map (fun p => p.id)

/-- One lexical segment of a raw answer: either a single non-marker
character, or a citation marker `[ds]` holding its digit characters. -/
inductive Seg where
  | ch (c : Char)
  | marker (ds : List Char)
deriving DecidableEq, Repr

/-- The raw characters a segment came from: a marker `ds` came from the
bracketed token formed by its digits. -/
def rawOfSeg : Seg → List Char
  | Seg.ch c => [c]
  | Seg.marker ds => '[' :: (ds ++ [']'])

/-- Split a character list into its maximal leading run of digits and the
remainder. -/
def takeDigits : List Char → List Char × List Char
  | [] => ([], [])
  | c :: cs =>
    if c.isDigit then ((c :: (takeDigits cs).1), (takeDigits cs).2)
    else ([], c :: cs)

/-- Numeric value of a digit string (most significant digit first). -/
def digitsToNat (ds : List Char) : Nat :=
  ds.foldl (fun a c => 10 * a + (c.toNat - 48)) 0

/-- Fuel-indexed scanner for citation markers of the fixed lexical form
`[digits]`, scanning left to right; malformed marker syntax is left
verbatim as character segments (spec section 4.1).  The fuel only serves
termination: with fuel at least the length of the input the scan is
complete. -/
def parseSegsF : Nat → List Char → List Seg
  | _, [] => []
  | 0, _ :: _ => []
  | fuel + 1, c :: cs =>
    if c = '[' ∧ (takeDigits cs).1 ≠ [] ∧ (takeDigits cs).2.head? = some ']' then
      Seg.marker (takeDigits cs).1 :: parseSegsF fuel (takeDigits cs).2.tail
    else
      Seg.ch c :: parseSegsF fuel cs

/-- Citation Parser (spec section 4.1): segment a raw answer into plain
characters and citation markers. -/
def parseSegs (l : List Char) : List Seg := parseSegsF l.length l

/-- Join segments back into text through a per-segment rendering. -/
def joinSegs (f : Seg → List Char) (segs : List Seg) : List Char :=
  (segs.map f).flatten

/-- Modelled from the spec: the stable cross-reference anchor a resolved
marker is rewritten into (spec section 4.2, Resolved case).  The concrete
anchor shape is not fixed by the source under src/. -/
def anchorFor (n : Nat) : List Char :=
  ("<a href=#source-" ++ Nat.repr n ++ ">" ++ Nat.repr n ++ "</a>").toList

/-- Per-segment output of reconciliation: non-marker characters pass
through unchanged; a resolved marker becomes its anchor; an unresolved
marker is stripped (spec section 4.2). -/
def outOfSeg (E : EvidenceSet) : Seg → List Char
  | Seg.ch c => [c]
  | Seg.marker ds =>
    if digitsToNat ds ∈ idsOf E then anchorFor (digitsToNat ds) else []

/-- Identifiers referenced by the markers of a segment list, in order of
appearance, with multiplicity. -/
def markerIds (segs : List Seg) : List Nat :=
  segs.filterMap (fun s =>
    match s with
    | Seg.marker ds => some (digitsToNat ds)
    | Seg.ch _ => none)

/-- Deduplication keeping the first occurrence of each element, given the
elements already seen. -/
def dedupFirstAux (seen : List Nat) : List Nat → List Nat
  | [] => []
  | x :: xs =>
    if x ∈ seen then dedupFirstAux seen xs
    else x :: dedupFirstAux (x :: seen) xs

/-- Deduplication keeping first occurrences, preserving order. -/
def dedupFirst (l : List Nat) : List Nat := dedupFirstAux [] l

/-- Modelled from the spec: `process_citations` (imported by chat.py from
`paperchat.utils.formatting`, which is absent from src/).  Per spec
section 4.2 it reconciles a raw answer against the evidence set: resolved
markers are rewritten into anchors, unresolved markers are stripped, text
outside markers passes through unchanged, and the cited evidence is the
referenced passages deduplicated by identifier in first-citation order. -/
def process_citations (raw : String) (E : EvidenceSet) : String × EvidenceSet :=
  let segs := parseSegs raw.toList
  let ids := dedupFirst ((markerIds segs).filter (fun i => decide (i ∈ idsOf E)))
  (String.mk (joinSegs (outOfSeg E) segs),
   ids.filterMap (fun i => E.find? (fun p => decide (p.id = i))))

/-- Cited evidence as the specification words it (spec section 8, first
property): the passages referenced by the markers of the raw answer,
deduplicated by identifier, ordered by first citation occurrence. -/
def specCitedEvidence (raw : String) (E : EvidenceSet) : EvidenceSet :=
  (dedupFirst (markerIds (parseSegs raw.toList))).filterMap
    (fun i => E.find? (fun p => decide (p.id = i)))

/-- Marker-freedom of a string: its parse contains only plain character
segments. -/
def noMarkers (s : String) : Prop :=
  (parseSegs s.toList).all (fun seg =>
    match seg with
    | Seg.ch _ => true
    | Seg.marker _ => false) = true

instance (s : String) : Decidable (noMarkers s) := by
  unfold noMarkers; infer_instance

/-- Modelled from the spec: `format_response_with_citations` (imported by
chat.py from `paperchat.utils.formatting`, absent from src/).  The data
flow of spec section 2 hands the annotated answer produced by the Citation
Reconciler directly to Conversation State as the markup-safe
`display_text`, so the formatting step is modelled as the identity on that
text. -/
def format_response_with_citations (s : String) : String := s

/-- Configuration mapping read by the orchestrator: at least a `top_k`
entry (possibly absent, defaulting to 5) and model and provider selection
(spec section 6, Configuration source). -/
structure Config where
  top_k : Option Nat
  model : String
  provider : String
deriving DecidableEq, Repr

/-- The active RAG pipeline instance; what matters to the orchestrator is
which configuration the instance was built from. -/
structure Pipeline where
  builtFrom : Config
deriving DecidableEq, Repr

/-- One message of the conversation log: the dictionaries appended to
`st.session_state.messages` in chat.py, with the optional `raw_content`
and `sources` keys as options. -/
structure Turn where
  role : String
  content : String
  raw_content : Option String
  sources : Option EvidenceSet
deriving DecidableEq, Repr

/-- The user turn appended at chat.py line 79. -/
def userTurn (q : String) : Turn :=
  { role := "user", content := q, raw_content := none, sources := none }

/-- The faulted assistant turn appended at chat.py lines 135-137: content
is the user-visible error description, sources are empty. -/
def errorTurn (e : String) : Turn :=
  { role := "assistant", content := "Error: " ++ e, raw_content := none,
    sources := some [] }

/-- The successful assistant turn appended at chat.py lines 114-121. -/
def assistantTurn (content raw : String) (cited : EvidenceSet) : Turn :=
  { role := "assistant", content := content, raw_content := some raw,
    sources := some cited }

/-- The per-session state touched by one turn of `render_chat_interface`:
the conversation log, the configuration, the model-config snapshot, the
pipeline instance, and the data of the active document. -/
structure SessionState where
  messages : List Turn
  config : Config
  model_config_snapshot : Config
  rag_pipeline : Pipeline
  active_document : String
deriving DecidableEq, Repr

/-- A record of one invocation of `rag_pipeline.run`, logging the pipeline
instance invoked, the arguments passed, and the conversation log at the
moment of the call. -/
structure RunCall where
  pipeline : Pipeline
  query : String
  document_data : String
  top_k : Nat
  stream : Bool
  messagesAtCall : List Turn
deriving DecidableEq, Repr

/-- Modelled from the spec: `check_model_config_changes` (imported by
chat.py from `paperchat.ui.common`, absent from src/).  Per spec section
4.3 ConfigCheck, it compares the current configuration to the
model-config snapshot; on mismatch it rebuilds the pipeline instance and
updates the snapshot before proceeding; a failed rebuild raises a
ConfigRebuildError, modelled by the error of the rebuild collaborator. -/
def check_model_config_changes (config snapshot : Config) (pl : Pipeline)
    (rebuildO : Config → Except String Pipeline) :
    Except String (Config × Pipeline) :=
  if config = snapshot then Except.ok (snapshot, pl)
  else (rebuildO config).map (fun pl2 => (config, pl2))

/-- Append a faulted assistant turn to the conversation log (the except
branch of chat.py, lines 131-137). -/
def faulted (st : SessionState) (e : String) : SessionState :=
  { st with messages := st.messages ++ [errorTurn e] }

/-- Embedding of the user-query branch of `render_chat_interface`
(chat.py lines 78-141).  External collaborators are passed as functions:
`rebuildO` rebuilds the pipeline from a configuration, `runO` is
`rag_pipeline.run` (receiver pipeline, query, document data, top_k,
stream), `citeO` is `process_citations` and `formatO` is
`format_response_with_citations`; an `Except.error` of a collaborator
models a Python exception reaching the single try/except handler.  The
returned list logs every `rag_pipeline.run` invocation made. -/
def render_chat_interface (st : SessionState) (user_query : String)
    (rebuildO : Config → Except String Pipeline)
    (runO : Pipeline → String → String → Nat → Bool →
      Except String (String × EvidenceSet))
    (citeO : String → EvidenceSet → Except String (String × EvidenceSet))
    (formatO : String → Except String String) :
    SessionState × List RunCall :=
  match check_model_config_changes st.config st.model_config_snapshot
      st.rag_pipeline rebuildO with
  | Except.error e =>
    (faulted { st with messages := st.messages ++ [userTurn user_query] } e, [])
  | Except.ok (snap2, pl2) =>
    let st2 : SessionState :=
      { st with
        messages := st.messages ++ [userTurn user_query],
        model_config_snapshot := snap2,
        rag_pipeline := pl2 }
    let call : RunCall :=
      { pipeline := pl2, query := user_query,
        document_data := st.active_document,
        top_k := st.config.top_k.getD 5,
        stream := false,
        messagesAtCall := st.messages ++ [userTurn user_query] }
    match runO pl2 user_query st.active_document (st.config.top_k.getD 5) false with
    | Except.error e => (faulted st2 e, [call])
    | Except.ok (llm_response, retrieved_chunks) =>
      match citeO llm_response retrieved_chunks with
      | Except.error e => (faulted st2 e, [call])
      | Except.ok (processed_response, cited_chunks_filtered) =>
        match formatO processed_response with
        | Except.error e => (faulted st2 e, [call])
        | Except.ok formatted_response =>
          ({ st2 with messages := st2.messages ++
              [assistantTurn formatted_response llm_response
                cited_chunks_filtered] },
           [call])

/-- The turn body with the concrete citation reconciler and response
formatter plugged in (chat.py lines 108-121). -/
def render_chat_interface_run (st : SessionState) (user_query : String)
    (rebuildO : Config → Except String Pipeline)
    (runO : Pipeline → String → String → Nat → Bool →
      Except String (String × EvidenceSet)) :
    SessionState × List RunCall :=
  render_chat_interface st user_query rebuildO runO
    (fun r ev => Except.ok (process_citations r ev))
    (fun s => Except.ok (format_response_with_citations s))

/-! Helper lemmas about the parser and the reconciler. -/

theorem takeDigits_append (l : List Char) :
    (takeDigits l).1 ++ (takeDigits l).2 = l := by
  induction l with
  | nil => simp [takeDigits]
  | cons c cs ih =>
    by_cases h : c.isDigit
    · simp [takeDigits, h, ih]
    · simp [takeDigits, h]

theorem joinSegs_nil (f : Seg → List Char) : joinSegs f [] = [] := rfl

theorem joinSegs_cons (f : Seg → List Char) (s : Seg) (segs : List Seg) :
    joinSegs f (s :: segs) = f s ++ joinSegs f segs := by
  simp [joinSegs]

theorem joinSegs_rawOfSeg_parseSegsF :
    ∀ (fuel : Nat) (l : List Char), l.length ≤ fuel →
      joinSegs rawOfSeg (parseSegsF fuel l) = l := by
  intro fuel
  induction fuel with
  | zero =>
    intro l hl
    have : l = [] := List.length_eq_zero.mp (Nat.le_zero.mp hl)
    subst this
    simp [parseSegsF, joinSegs]
  | succ fuel ih =>
    intro l hl
    match l with
    | [] => simp [parseSegsF, joinSegs]
    | c :: cs =>
      rw [parseSegsF]
      by_cases h : c = '[' ∧ (takeDigits cs).1 ≠ [] ∧
          (takeDigits cs).2.head? = some ']'
      · rw [if_pos h]
        obtain ⟨hc, hds, hhd⟩ := h
        match hrest : (takeDigits cs).2 with
        | [] => rw [hrest] at hhd; simp at hhd
        | r :: rs =>
          rw [hrest] at hhd
          simp at hhd
          have hsplit : (takeDigits cs).1 ++ (r :: rs) = cs := by
            rw [← hrest]; exact takeDigits_append cs
          have hlen : rs.length ≤ fuel := by
            have := congrArg List.length hsplit
            simp at this
            simp at hl
            omega
          rw [joinSegs_cons]
          simp only [List.tail_cons]
          rw [ih rs hlen]
          subst hc
          subst hhd
          simp only [rawOfSeg]
          conv_rhs => rw [← hsplit]
          simp
      · rw [if_neg h]
        have hlen : cs.length ≤ fuel := by simp at hl; omega
        rw [joinSegs_cons, ih cs hlen, rawOfSeg]
        simp

theorem joinSegs_rawOfSeg_parseSegs (l : List Char) :
    joinSegs rawOfSeg (parseSegs l) = l :=
  joinSegs_rawOfSeg_parseSegsF l.length l (Nat.le_refl _)

theorem joinSegs_congr {f g : Seg → List Char} {segs : List Seg}
    (h : ∀ s ∈ segs, f s = g s) : joinSegs f segs = joinSegs g segs := by
  induction segs with
  | nil => rfl
  | cons s segs ih =>
    rw [joinSegs_cons, joinSegs_cons, h s (List.mem_cons_self s segs),
      ih (fun t ht => h t (List.mem_cons_of_mem s ht))]

theorem mem_dedupFirstAux {x : Nat} :
    ∀ (seen l : List Nat), x ∈ dedupFirstAux seen l → x ∈ l := by
  intro seen l
  induction l generalizing seen with
  | nil => simp [dedupFirstAux]
  | cons y ys ih =>
    intro hx
    rw [dedupFirstAux] at hx
    by_cases hy : y ∈ seen
    · rw [if_pos hy] at hx
      exact List.mem_cons_of_mem y (ih seen hx)
    · rw [if_neg hy] at hx
      rcases List.mem_cons.mp hx with h | h
      · exact h ▸ List.mem_cons_self y ys
      · exact List.mem_cons_of_mem y (ih (y :: seen) h)

theorem mem_dedupFirst {x : Nat} {l : List Nat} (h : x ∈ dedupFirst l) :
    x ∈ l :=
  mem_dedupFirstAux [] l h

theorem mem_process_citations_cited {raw : String} {E : EvidenceSet}
    {p : EvidencePassage} (h : p ∈ (process_citations raw E).2) :
    p ∈ E ∧ p.id ∈ idsOf E := by
  unfold process_citations at h
  simp only at h
  rcases List.mem_filterMap.mp h with ⟨i, hi, hfind⟩
  have hpE : p ∈ E := List.mem_of_find?_eq_some hfind
  have hpid := List.find?_some hfind
  simp only [decide_eq_true_eq] at hpid
  have hiE : i ∈ idsOf E := by
    have hmem := mem_dedupFirst hi
    have hflt := List.mem_filter.mp hmem
    exact of_decide_eq_true hflt.2
  exact ⟨hpE, hpid ▸ hiE⟩

/-- Evidence set fixture with the single passage of identifier 1. -/
def E1 : EvidenceSet := [{ id := 1, text := "Revenue rose 10 percent" }]

/-- Evidence set fixture with passages of identifiers 1 and 2. -/
def E2 : EvidenceSet := [{ id := 1, text := "alpha" }, { id := 2, text := "beta" }]

/-! Claim theorems about the Citation Reconciler. -/

/-- Claim C8: every character of the raw answer outside citation-marker
spans appears unchanged in `display_text`: the raw answer decomposes into
segments whose join reconstructs it exactly, `display_text` is the join of
the per-segment rewriting of that same decomposition, and every non-marker
segment is rendered as exactly its own character. -/
theorem nonmarker_text_preserved_C8 (raw : String) (E : EvidenceSet) :
    ∃ segs : List Seg,
      raw.toList = joinSegs rawOfSeg segs ∧
      (process_citations raw E).1.toList = joinSegs (outOfSeg E) segs ∧
      ∀ c : Char, outOfSeg E (Seg.ch c) = [c] :=
  ⟨parseSegs raw.toList, (joinSegs_rawOfSeg_parseSegs raw.toList).symm,
    rfl, fun _ => rfl⟩

/-- Claim C1 (amended): every citation marker whose referenced identifier
is absent from the evidence set is removed from `display_text` (its
segment renders as the empty string, not as raw marker syntax), no
identifier outside the evidence set appears in `cited_evidence`, and
`cited_evidence` is a subset (not necessarily strict) of the original
evidence set. -/
theorem unresolved_markers_stripped_C1 (raw : String) (E : EvidenceSet) :
    (∃ segs : List Seg,
        raw.toList = joinSegs rawOfSeg segs ∧
        (process_citations raw E).1.toList = joinSegs (outOfSeg E) segs ∧
        ∀ ds : List Char, digitsToNat ds ∉ idsOf E →
          outOfSeg E (Seg.marker ds) = []) ∧
    (∀ p ∈ (process_citations raw E).2, p ∈ E ∧ p.id ∈ idsOf E) := by
  constructor
  · refine ⟨parseSegs raw.toList,
      (joinSegs_rawOfSeg_parseSegs raw.toList).symm, rfl, ?_⟩
    intro ds hds
    simp [outOfSeg, hds]
  · intro p hp
    exact mem_process_citations_cited hp

/-- Witness for claim C1: in the reconciliation of `See [1] and [9].`
against `E1`, the cited passage 1 indeed lies in `E1` with its identifier
among the evidence identifiers. -/
theorem unresolved_markers_stripped_C1_witness :
    EvidencePassage.mk 1 "Revenue rose 10 percent" ∈ E1 ∧ (1 : Nat) ∈ idsOf E1 :=
  (unresolved_markers_stripped_C1 "See [1] and [9]." E1).2
    (EvidencePassage.mk 1 "Revenue rose 10 percent") (by decide)

/-- Claim C1 counterexample: for the raw answer `See [1] and [9].` and the
evidence set `E1`, the marker `[9]` is unresolved, yet `cited_evidence`
equals the whole evidence set, so it is NOT a strict subset of the
original evidence set as the claim states. -/
theorem strict_subset_counterexample_C1 :
    Seg.marker ['9'] ∈ parseSegs ("See [1] and [9].").toList ∧
    digitsToNat ['9'] ∉ idsOf E1 ∧
    (process_citations "See [1] and [9]." E1).2 = E1 ∧
    ¬ ((∀ p ∈ (process_citations "See [1] and [9]." E1).2, p ∈ E1) ∧
       ∃ p ∈ E1, p ∉ (process_citations "See [1] and [9]." E1).2) := by
  decide

/-- Claim C3: when every marker of the raw answer references an identifier
present in the evidence set, `cited_evidence` equals the referenced
passages, deduplicated by identifier, ordered by first citation
occurrence. -/
theorem cited_evidence_first_citation_order_C3 (raw : String) (E : EvidenceSet)
    (h : ∀ i ∈ markerIds (parseSegs raw.toList), i ∈ idsOf E) :
    (process_citations raw E).2 = specCitedEvidence raw E := by
  have hf : (markerIds (parseSegs raw.toList)).filter
        (fun i => decide (i ∈ idsOf E))
      = markerIds (parseSegs raw.toList) :=
    List.filter_eq_self.mpr (fun a ha => decide_eq_true (h a ha))
  unfold process_citations specCitedEvidence
  simp only [hf]

/-- Witness for claim C3 at a raw answer citing passages 2, 1, 2 of `E2`. -/
theorem cited_evidence_first_citation_order_C3_witness :
    (∀ i ∈ markerIds (parseSegs ("See [2] then [1] and [2].").toList),
      i ∈ idsOf E2) ∧
    (process_citations "See [2] then [1] and [2]." E2).2
      = specCitedEvidence "See [2] then [1] and [2]." E2 :=
  ⟨by decide,
   cited_evidence_first_citation_order_C3 "See [2] then [1] and [2]." E2
     (by decide)⟩

/-- Claim C9 (amended): reconciliation is a no-op on any text with no
remaining citation markers — in particular on a `display_text` produced by
an earlier reconcile once no markers remain in it: the text is returned
unchanged and no citations are produced. -/
theorem reconcile_noop_on_marker_free_text_C9 (s : String) (E : EvidenceSet)
    (h : noMarkers s) : process_citations s E = (s, []) := by
  have hch : ∀ seg ∈ parseSegs s.toList, ∃ c, seg = Seg.ch c := by
    intro seg hseg
    have hall := List.all_eq_true.mp h seg hseg
    match seg with
    | Seg.ch c => exact ⟨c, rfl⟩
    | Seg.marker ds => simp at hall
  have hmk : markerIds (parseSegs s.toList) = [] := by
    rw [markerIds, List.filterMap_eq_nil_iff]
    intro seg hseg
    rcases hch seg hseg with ⟨c, rfl⟩
    rfl
  have hjoin : joinSegs (outOfSeg E) (parseSegs s.toList) = s.toList := by
    have hcongr : joinSegs (outOfSeg E) (parseSegs s.toList)
        = joinSegs rawOfSeg (parseSegs s.toList) := by
      apply joinSegs_congr
      intro seg hseg
      rcases hch seg hseg with ⟨c, rfl⟩
      rfl
    rw [hcongr, joinSegs_rawOfSeg_parseSegs]
  unfold process_citations
  simp only [hmk, List.filter_nil, hjoin]
  rfl

/-- Witness for claim C9 on a marker-free text. -/
theorem reconcile_noop_on_marker_free_text_C9_witness :
    noMarkers "See  for details." ∧
    process_citations "See  for details." E1 = ("See  for details.", []) :=
  ⟨by decide,
   reconcile_noop_on_marker_free_text_C9 "See  for details." E1 (by decide)⟩

/-- Claim C9 counterexample: reconciling `[[9]1]` against `E1` strips the
unresolved marker `[9]`, producing the text `[1]`, which is itself a
marker; reconciling that display text again with the same evidence set
changes the text and adds a new citation, so reconciliation as claimed —
unconditionally idempotent — fails. -/
theorem reconcile_not_idempotent_counterexample_C9 :
    (process_citations "[[9]1]" E1).1 = "[1]" ∧
    (process_citations (process_citations "[[9]1]" E1).1 E1).1 ≠
      (process_citations "[[9]1]" E1).1 ∧
    (process_citations (process_citations "[[9]1]" E1).1 E1).2 ≠ [] := by
  decide

/-! Helper lemma about the config check, and concrete fixtures for the
orchestrator witnesses. -/

theorem check_model_config_changes_ok {config snapshot snap2 : Config}
    {pl pl2 : Pipeline} {rebuildO : Config → Except String Pipeline}
    (hsnap : pl.builtFrom = snapshot)
    (hrebuild : ∀ c p, rebuildO c = Except.ok p → p.builtFrom = c)
    (h : check_model_config_changes config snapshot pl rebuildO
      = Except.ok (snap2, pl2)) :
    snap2 = config ∧ pl2.builtFrom = config := by
  unfold check_model_config_changes at h
  by_cases heq : config = snapshot
  · rw [if_pos heq] at h
    injection h with h2
    injection h2 with h3 h4
    subst h3
    subst h4
    exact ⟨heq.symm, by rw [hsnap]; exact heq.symm⟩
  · rw [if_neg heq] at h
    cases hre : rebuildO config with
    | error e => rw [hre] at h; simp [Except.map] at h
    | ok p =>
      rw [hre] at h
      simp only [Except.map] at h
      injection h with h2
      injection h2 with h3 h4
      subst h3
      subst h4
      exact ⟨rfl, hrebuild config p hre⟩

/-- Configuration fixture with an explicit top_k entry. -/
def cfg0 : Config := { top_k := some 3, model := "m", provider := "p" }

/-- Configuration fixture without a top_k entry. -/
def cfg1 : Config := { top_k := none, model := "m2", provider := "p" }

/-- Session fixture whose snapshot matches the current configuration. -/
def st0 : SessionState :=
  { messages := [], config := cfg0, model_config_snapshot := cfg0,
    rag_pipeline := { builtFrom := cfg0 }, active_document := "doc" }

/-- Session fixture whose configuration changed since the pipeline was
built. -/
def stMismatch : SessionState :=
  { messages := [], config := cfg1, model_config_snapshot := cfg0,
    rag_pipeline := { builtFrom := cfg0 }, active_document := "doc" }

/-- Rebuild collaborator that constructs a pipeline from the given
configuration. -/
def rebuildOk : Config → Except String Pipeline :=
  fun c => Except.ok { builtFrom := c }

/-- Retrieval-generation collaborator returning a fixed answer and
evidence set. -/
def runOk : Pipeline → String → String → Nat → Bool →
    Except String (String × EvidenceSet) :=
  fun _ _ _ _ _ => Except.ok ("Revenue grew 10 percent [1].", E1)

/-- Retrieval-generation collaborator that fails. -/
def runErr : Pipeline → String → String → Nat → Bool →
    Except String (String × EvidenceSet) :=
  fun _ _ _ _ _ => Except.error "network failure"

/-- The concrete citation reconciler as a collaborator. -/
def citeOk : String → EvidenceSet → Except String (String × EvidenceSet) :=
  fun r ev => Except.ok (process_citations r ev)

/-- The concrete response formatter as a collaborator. -/
def formatOk : String → Except String String :=
  fun s => Except.ok (format_response_with_citations s)

/-- The retrieval invocation record a turn makes when its config check
hands it the pipeline `pl2`. -/
def expectedCall (st : SessionState) (q : String) (pl2 : Pipeline) : RunCall :=
  { pipeline := pl2, query := q, document_data := st.active_document,
    top_k := st.config.top_k.getD 5, stream := false,
    messagesAtCall := st.messages ++ [userTurn q] }

/-! Claim theorems about the Dialogue Orchestrator. -/

/-- Shape of the conversation log after one turn, for any collaborator
behaviour: exactly the user turn and one assistant turn are appended. -/
theorem render_appends_two_turns (st : SessionState) (q : String)
    (rebuildO : Config → Except String Pipeline)
    (runO : Pipeline → String → String → Nat → Bool →
      Except String (String × EvidenceSet))
    (citeO : String → EvidenceSet → Except String (String × EvidenceSet))
    (formatO : String → Except String String) :
    ∃ t : Turn, t.role = "assistant" ∧
      (render_chat_interface st q rebuildO runO citeO formatO).1.messages
        = st.messages ++ [userTurn q, t] := by
  unfold render_chat_interface
  cases hc : check_model_config_changes st.config st.model_config_snapshot
      st.rag_pipeline rebuildO with
  | error e => exact ⟨errorTurn e, rfl, by simp [faulted]⟩
  | ok pr =>
    obtain ⟨snap2, pl2⟩ := pr
    cases hr : runO pl2 q st.active_document (st.config.top_k.getD 5) false with
    | error e => exact ⟨errorTurn e, rfl, by simp only [hr]; simp [faulted]⟩
    | ok pr2 =>
      obtain ⟨llm, chunks⟩ := pr2
      simp only [hr]
      cases hcite : citeO llm chunks with
      | error e => exact ⟨errorTurn e, rfl, by simp only [hcite]; simp [faulted]⟩
      | ok pr3 =>
        obtain ⟨proc, cited⟩ := pr3
        simp only [hcite]
        cases hf : formatO proc with
        | error e => exact ⟨errorTurn e, rfl, by simp only [hf]; simp [faulted]⟩
        | ok fr =>
          exact ⟨assistantTurn fr llm cited, rfl, by simp only [hf]; simp⟩

/-- Claim C10: whatever any collaborator of the turn body does — the
config check, the retrieval call, citation reconciliation or response
formatting may each fail — processing a user query returns a normal
session state (it never raises), with exactly the user turn and one
assistant turn appended to Conversation State. -/
theorem turn_never_raises_C10 (st : SessionState) (q : String)
    (rebuildO : Config → Except String Pipeline)
    (runO : Pipeline → String → String → Nat → Bool →
      Except String (String × EvidenceSet))
    (citeO : String → EvidenceSet → Except String (String × EvidenceSet))
    (formatO : String → Except String String) :
    ∃ t : Turn, t.role = "assistant" ∧
      (render_chat_interface st q rebuildO runO citeO formatO).1.messages
        = st.messages ++ [userTurn q, t] :=
  render_appends_two_turns st q rebuildO runO citeO formatO

/-- Claim C4: the user turn (role user, carrying the query) is appended to
Conversation State before the retrieval-generation call begins — the
conversation log recorded at every `rag_pipeline.run` invocation already
ends with it — and after the turn completes, faulted or not, the log is
the old log, then that unchanged user turn, then one more turn. -/
theorem user_turn_appended_before_retrieval_C4 (st : SessionState) (q : String)
    (rebuildO : Config → Except String Pipeline)
    (runO : Pipeline → String → String → Nat → Bool →
      Except String (String × EvidenceSet))
    (citeO : String → EvidenceSet → Except String (String × EvidenceSet))
    (formatO : String → Except String String) :
    (userTurn q).role = "user" ∧ (userTurn q).content = q ∧
    (∀ rc ∈ (render_chat_interface st q rebuildO runO citeO formatO).2,
      rc.messagesAtCall = st.messages ++ [userTurn q]) ∧
    ∃ t : Turn,
      (render_chat_interface st q rebuildO runO citeO formatO).1.messages
        = st.messages ++ [userTurn q] ++ [t] := by
  refine ⟨rfl, rfl, ?_, ?_⟩
  · unfold render_chat_interface
    cases hc : check_model_config_changes st.config st.model_config_snapshot
        st.rag_pipeline rebuildO with
    | error e => intro rc hrc; simp at hrc
    | ok pr =>
      obtain ⟨snap2, pl2⟩ := pr
      intro rc hrc
      cases hr : runO pl2 q st.active_document (st.config.top_k.getD 5) false with
      | error e =>
        simp only [hr] at hrc
        simp at hrc
        subst hrc
        rfl
      | ok pr2 =>
        obtain ⟨llm, chunks⟩ := pr2
        simp only [hr] at hrc
        cases hcite : citeO llm chunks with
        | error e =>
          simp only [hcite] at hrc
          simp at hrc
          subst hrc
          rfl
        | ok pr3 =>
          obtain ⟨proc, cited⟩ := pr3
          simp only [hcite] at hrc
          cases hf : formatO proc with
          | error e =>
            simp only [hf] at hrc
            simp at hrc
            subst hrc
            rfl
          | ok fr =>
            simp only [hf] at hrc
            simp at hrc
            subst hrc
            rfl
  · obtain ⟨t, _, ht⟩ := render_appends_two_turns st q rebuildO runO citeO formatO
    exact ⟨t, by rw [ht]; simp⟩

/-- Witness for claim C4: with concrete collaborators, the log recorded at
the single retrieval invocation already ends with the user turn. -/
theorem user_turn_appended_before_retrieval_C4_witness :
    (expectedCall st0 "What grew?" { builtFrom := cfg0 }).messagesAtCall
      = st0.messages ++ [userTurn "What grew?"] :=
  (user_turn_appended_before_retrieval_C4 st0 "What grew?" rebuildOk runOk
      citeOk formatOk).2.2.1 _ (by decide)

/-- The faulted assistant turn carries a non-empty error description. -/
theorem errorTurn_content_ne_empty (e : String) :
    (errorTurn e).content ≠ "" := by
  intro heq
  have hd := congrArg String.data heq
  have hd2 : "Error: ".data ++ e.data = [] := by
    rw [← String.data_append]
    exact hd
  have := List.append_eq_nil.mp hd2
  exact absurd this.1 (by decide)

/-- Claim C2: if the config check fails, or the config check succeeds and
the retrieval-generation call fails, the turn still appends an assistant
turn whose content is a non-empty error description and whose cited
evidence is empty, right after the unchanged user turn — the error does
not escape the turn. -/
theorem faulted_turn_appends_error_C2 (st : SessionState) (q : String)
    (rebuildO : Config → Except String Pipeline)
    (runO : Pipeline → String → String → Nat → Bool →
      Except String (String × EvidenceSet))
    (citeO : String → EvidenceSet → Except String (String × EvidenceSet))
    (formatO : String → Except String String) (e : String)
    (h : check_model_config_changes st.config st.model_config_snapshot
          st.rag_pipeline rebuildO = Except.error e
       ∨ ∃ snap2 pl2,
          check_model_config_changes st.config st.model_config_snapshot
            st.rag_pipeline rebuildO = Except.ok (snap2, pl2)
          ∧ runO pl2 q st.active_document (st.config.top_k.getD 5) false
            = Except.error e) :
    (render_chat_interface st q rebuildO runO citeO formatO).1.messages
      = st.messages ++ [userTurn q, errorTurn e] ∧
    (errorTurn e).role = "assistant" ∧
    (errorTurn e).content ≠ "" ∧
    (errorTurn e).sources = some [] := by
  refine ⟨?_, rfl, errorTurn_content_ne_empty e, rfl⟩
  unfold render_chat_interface
  rcases h with hc | ⟨snap2, pl2, hc, hr⟩
  · simp only [hc]
    simp [faulted]
  · simp only [hc, hr]
    simp [faulted]

/-- Witness for claim C2: the retrieval collaborator fails with a network
error and the turn still ends in a faulted assistant turn. -/
theorem faulted_turn_appends_error_C2_witness :
    (render_chat_interface st0 "What grew?" rebuildOk runErr citeOk
        formatOk).1.messages
      = st0.messages ++ [userTurn "What grew?", errorTurn "network failure"] ∧
    (errorTurn "network failure").role = "assistant" ∧
    (errorTurn "network failure").content ≠ "" ∧
    (errorTurn "network failure").sources = some [] :=
  faulted_turn_appends_error_C2 st0 "What grew?" rebuildOk runErr citeOk
    formatOk "network failure"
    (Or.inr ⟨cfg0, { builtFrom := cfg0 }, rfl, rfl⟩)

/-- Claim C5: if the snapshot names the configuration the active pipeline
was built from, and rebuilding yields a pipeline built from the requested
configuration, then every retrieval invocation of the turn uses a
pipeline built from the CURRENT configuration — never a stale one — and
the snapshot after the turn equals the current configuration. -/
theorem pipeline_never_stale_C5 (st : SessionState) (q : String)
    (rebuildO : Config → Except String Pipeline)
    (runO : Pipeline → String → String → Nat → Bool →
      Except String (String × EvidenceSet))
    (citeO : String → EvidenceSet → Except String (String × EvidenceSet))
    (formatO : String → Except String String)
    (hsnap : st.rag_pipeline.builtFrom = st.model_config_snapshot)
    (hrebuild : ∀ c p, rebuildO c = Except.ok p → p.builtFrom = c) :
    ∀ rc ∈ (render_chat_interface st q rebuildO runO citeO formatO).2,
      rc.pipeline.builtFrom = st.config ∧
      (render_chat_interface st q rebuildO runO citeO
        formatO).1.model_config_snapshot = st.config := by
  unfold render_chat_interface
  cases hc : check_model_config_changes st.config st.model_config_snapshot
      st.rag_pipeline rebuildO with
  | error e => intro rc hrc; simp at hrc
  | ok pr =>
    obtain ⟨snap2, pl2⟩ := pr
    obtain ⟨hsnap2, hpl2⟩ := check_model_config_changes_ok hsnap hrebuild hc
    intro rc hrc
    cases hr : runO pl2 q st.active_document (st.config.top_k.getD 5) false with
    | error e =>
      simp only [hr] at hrc ⊢
      simp at hrc
      subst hrc
      exact ⟨hpl2, by simp [faulted, hsnap2]⟩
    | ok pr2 =>
      obtain ⟨llm, chunks⟩ := pr2
      simp only [hr] at hrc ⊢
      cases hcite : citeO llm chunks with
      | error e =>
        simp only [hcite] at hrc ⊢
        simp at hrc
        subst hrc
        exact ⟨hpl2, by simp [faulted, hsnap2]⟩
      | ok pr3 =>
        obtain ⟨proc, cited⟩ := pr3
        simp only [hcite] at hrc ⊢
        cases hf : formatO proc with
        | error e =>
          simp only [hf] at hrc ⊢
          simp at hrc
          subst hrc
          exact ⟨hpl2, by simp [faulted, hsnap2]⟩
        | ok fr =>
          simp only [hf] at hrc ⊢
          simp at hrc
          subst hrc
          exact ⟨hpl2, by simp [hsnap2]⟩

/-- Witness for claim C5: with the configuration changed since the last
build, the rebuilt pipeline used for retrieval is built from the current
configuration and the snapshot is updated to it. -/
theorem pipeline_never_stale_C5_witness :
    (expectedCall stMismatch "q2" { builtFrom := cfg1 }).pipeline.builtFrom
      = stMismatch.config ∧
    (render_chat_interface stMismatch "q2" rebuildOk runOk citeOk
      formatOk).1.model_config_snapshot = stMismatch.config :=
  pipeline_never_stale_C5 stMismatch "q2" rebuildOk runOk citeOk formatOk rfl
    (fun c p h => by
      injection h with h2
      rw [← h2])
    _ (by decide)

/-- Claim C6: every retrieval-generation invocation of the turn is made
with stream false and with top_k read from the configuration mapping,
defaulting to 5 when the configuration has no top_k entry. -/
theorem run_invocation_arguments_C6 (st : SessionState) (q : String)
    (rebuildO : Config → Except String Pipeline)
    (runO : Pipeline → String → String → Nat → Bool →
      Except String (String × EvidenceSet))
    (citeO : String → EvidenceSet → Except String (String × EvidenceSet))
    (formatO : String → Except String String) :
    ∀ rc ∈ (render_chat_interface st q rebuildO runO citeO formatO).2,
      rc.stream = false ∧
      rc.top_k = st.config.top_k.getD 5 ∧
      (st.config.top_k = none → rc.top_k = 5) := by
  unfold render_chat_interface
  cases hc : check_model_config_changes st.config st.model_config_snapshot
      st.rag_pipeline rebuildO with
  | error e => intro rc hrc; simp at hrc
  | ok pr =>
    obtain ⟨snap2, pl2⟩ := pr
    intro rc hrc
    have hgoal : rc = expectedCall st q pl2 := by
      cases hr : runO pl2 q st.active_document (st.config.top_k.getD 5) false with
      | error e => simp only [hr] at hrc; simpa [expectedCall] using hrc
      | ok pr2 =>
        obtain ⟨llm, chunks⟩ := pr2
        simp only [hr] at hrc
        cases hcite : citeO llm chunks with
        | error e => simp only [hcite] at hrc; simpa [expectedCall] using hrc
        | ok pr3 =>
          obtain ⟨proc, cited⟩ := pr3
          simp only [hcite] at hrc
          cases hf : formatO proc with
          | error e => simp only [hf] at hrc; simpa [expectedCall] using hrc
          | ok fr => simp only [hf] at hrc; simpa [expectedCall] using hrc
    subst hgoal
    exact ⟨rfl, rfl, fun hk => by simp [expectedCall, hk]⟩

/-- Witness for claim C6: with no top_k entry in the configuration, the
single retrieval invocation uses stream false and top_k 5. -/
theorem run_invocation_arguments_C6_witness :
    (expectedCall stMismatch "q2" { builtFrom := cfg1 }).stream = false ∧
    (expectedCall stMismatch "q2" { builtFrom := cfg1 }).top_k
      = stMismatch.config.top_k.getD 5 ∧
    (stMismatch.config.top_k = none →
      (expectedCall stMismatch "q2" { builtFrom := cfg1 }).top_k = 5) :=
  run_invocation_arguments_C6 stMismatch "q2" rebuildOk runOk citeOk formatOk
    _ (by decide)

/-- Claim C7: on a successful turn, the Turn appended to Conversation
State has role assistant, content equal to the reconciled display text,
raw_content equal to the original raw answer returned by the
retrieval-generation call, and cited evidence equal to the filtered cited
evidence of the reconciler. -/
theorem success_turn_fields_C7 (st : SessionState) (q : String)
    (rebuildO : Config → Except String Pipeline)
    (runO : Pipeline → String → String → Nat → Bool →
      Except String (String × EvidenceSet))
    (snap2 : Config) (pl2 : Pipeline) (llm : String) (chunks : EvidenceSet)
    (hc : check_model_config_changes st.config st.model_config_snapshot
      st.rag_pipeline rebuildO = Except.ok (snap2, pl2))
    (hr : runO pl2 q st.active_document (st.config.top_k.getD 5) false
      = Except.ok (llm, chunks)) :
    (render_chat_interface_run st q rebuildO runO).1.messages
      = st.messages ++ [userTurn q,
          assistantTurn (process_citations llm chunks).1 llm
            (process_citations llm chunks).2] ∧
    (assistantTurn (process_citations llm chunks).1 llm
      (process_citations llm chunks).2).role = "assistant" ∧
    (assistantTurn (process_citations llm chunks).1 llm
      (process_citations llm chunks).2).raw_content = some llm ∧
    (assistantTurn (process_citations llm chunks).1 llm
      (process_citations llm chunks).2).sources
      = some (process_citations llm chunks).2 := by
  refine ⟨?_, rfl, rfl, rfl⟩
  cases hpc : process_citations llm chunks with
  | mk proc cited =>
    unfold render_chat_interface_run render_chat_interface
    simp only [hc, hr, hpc]
    simp [format_response_with_citations]

/-- Witness for claim C7 at concrete collaborators whose retrieval call
returns the answer `Revenue grew 10 percent [1].` with evidence `E1`. -/
theorem success_turn_fields_C7_witness :
    (render_chat_interface_run st0 "What grew?" rebuildOk runOk).1.messages
      = st0.messages ++ [userTurn "What grew?",
          assistantTurn
            (process_citations "Revenue grew 10 percent [1]." E1).1
            "Revenue grew 10 percent [1]."
            (process_citations "Revenue grew 10 percent [1]." E1).2] ∧
    (assistantTurn (process_citations "Revenue grew 10 percent [1]." E1).1
      "Revenue grew 10 percent [1]."
      (process_citations "Revenue grew 10 percent [1]." E1).2).role
      = "assistant" ∧
    (assistantTurn (process_citations "Revenue grew 10 percent [1]." E1).1
      "Revenue grew 10 percent [1]."
      (process_citations "Revenue grew 10 percent [1]." E1).2).raw_content
      = some "Revenue grew 10 percent [1]." ∧
    (assistantTurn (process_citations "Revenue grew 10 percent [1]." E1).1
      "Revenue grew 10 percent [1]."
      (process_citations "Revenue grew 10 percent [1]." E1).2).sources
      = some (process_citations "Revenue grew 10 percent [1]." E1).2 :=
  success_turn_fields_C7 st0 "What grew?" rebuildOk runOk cfg0
    { builtFrom := cfg0 } "Revenue grew 10 percent [1]." E1 rfl rfl

end PaperChat
